import Mathlib

/-!
Shallow embedding of the AlarmBoard front-end core (the two-source variant of
`src/alarms/Alarms.tsx`, plus the helpers it imports from `src/lib/api.ts`).

The embedding models:
  * the two configured backend sources (`/api100` → `10.2.1.100`, `/api69` → `10.2.1.69`),
  * the alarm DTO and the row projection performed in `fetchData` (`mapped`),
  * one aggregation round (two sequential per-source try/catch fetches, merge,
    connection note, wholesale row replacement, comment hydration),
  * the local filter (`filtered`) and the sort comparator (`sorted`),
  * the 1-second auto-refresh interval and the manual-refresh button,
  * the clear-filters action (`clearFilters`).

JavaScript numbers are modelled as exact rationals with explicit `NaN` and
`±Infinity` values (`JsNum`); float64 rounding is not modelled, which is exact
on the integral and short decimal literals exercised here.  External
capabilities are modelled as explicit data: each source fetch result is an
`Except` value (the thrown error message on failure), the host `Date`
formatting/parsing pair is an explicit `Env` of functions, and `localStorage`
is a key-to-value map passed into the round.
-/

namespace AlarmBoard

/-- The two configured backends, in the configuration order of `fetchData`
(`/api100` first, then `/api69`). -/
inductive SourceIp where
  | ip100
  | ip69
deriving DecidableEq, Repr

/-- The `fromIp` string tag attached to each fetched item
(`'10.2.1.100' | '10.2.1.69'` in `fetchData`). -/
def SourceIp.str : SourceIp → String
  | .ip100 => "10.2.1.100"
  | .ip69  => "10.2.1.69"

/-- The composite row identity built in `fetchData`:
`const composedId = ` then `${fromIp}-${a.id}`. -/
def composedId (src : SourceIp) (localId : String) : String :=
  src.str ++ "-" ++ localId

/-- `COMMENT_KEY` from `Alarms.tsx`: the key is `alarm_comment_` followed by
the composite id. -/
def COMMENT_KEY (id : String) : String :=
  "alarm_comment_" ++ id

/-- The trigger value payload of an alarm
(`triggerValue: { value?: string; units?: string }` in `src/lib/api.ts`);
absent optional fields are `none`. -/
structure TriggerValue where
  value : Option String
  units : Option String
deriving DecidableEq, Repr

/-- `AlarmDTO` from `src/lib/api.ts`.  The `priority: number` field is
modelled as `Option Int`: `some n` is a finite (integral, as this API
delivers) number, `none` models a missing / `NaN` / non-finite value, i.e.
exactly the values on which `Number.isFinite` is `false`.  An absent
`triggerValue` is `none`. -/
structure AlarmDTO where
  id : String
  itemReference : String
  name : String
  creationTime : String
  isAcknowledged : Bool
  isDiscarded : Bool
  priority : Option Int
  triggerValue : Option TriggerValue
deriving DecidableEq, Repr

/-- A JavaScript number as observed by the filter and sort code: `NaN`,
`±Infinity`, or a finite value (modelled as an exact rational). -/
inductive JsNum where
  | nan
  | posInf
  | negInf
  | fin (q : Rat)
deriving DecidableEq, Repr

/-- ASCII whitespace as trimmed by JavaScript string-to-number conversion
and `String.prototype.trim` (the uncommon Unicode whitespace code points
are not modelled). -/
def isJsWs (c : Char) : Bool :=
  c = ' ' || c = '\t' || c = '\n' || c = '\r' || c = '\x0b' || c = '\x0c'

/-- Model of `String.prototype.trim`: drop leading and trailing
whitespace. -/
def jsTrim (s : String) : String :=
  (((s.data.dropWhile isJsWs).reverse.dropWhile isJsWs).reverse).asString

/-- Is the first character list a prefix of the second? -/
def isPrefixChars : List Char → List Char → Bool
  | [], _ => true
  | _ :: _, [] => false
  | a :: as, b :: bs => a = b && isPrefixChars as bs

/-- Does `needle` occur contiguously inside `hay`? -/
def isInfixChars (needle hay : List Char) : Bool :=
  match hay with
  | [] => needle.isEmpty
  | c :: rest => isPrefixChars needle (c :: rest) || isInfixChars needle rest

/-- Model of `String.prototype.toLowerCase`, restricted to the ASCII case
mapping of `Char.toLower` (the payloads compared here are ASCII). -/
def jsToLower (s : String) : String :=
  (s.data.map Char.toLower).asString

/-- Model of `String.prototype.endsWith`. -/
def jsEndsWith (s suffix : String) : Bool :=
  isPrefixChars suffix.data.reverse s.data.reverse

/-- Numeric value of a run of decimal digit characters. -/
def digitsVal (ds : List Char) : Nat :=
  ds.foldl (fun a c => a * 10 + (c.toNat - '0'.toNat)) 0

/-- Split a character list into its leading run of decimal digits and the
rest. -/
def takeDigits (l : List Char) : List Char × List Char :=
  (l.takeWhile Char.isDigit, l.dropWhile Char.isDigit)

/-- `10 ^ e` as a rational, for a possibly negative exponent. -/
def pow10 (e : Int) : Rat :=
  if 0 ≤ e then (10 : Rat) ^ e.toNat else 1 / (10 : Rat) ^ (-e).toNat

/-- Consume an optional exponent part (`e`/`E`, optional sign, digits) and
apply it to the mantissa; a malformed exponent is left unconsumed, as in
JavaScript numeric parsing. -/
def applyExp (mant : Rat) (l : List Char) : Rat × List Char :=
  match l with
  | [] => (mant, [])
  | e :: rest =>
    if e == 'e' || e == 'E' then
      let sr : Int × List Char :=
        match rest with
        | '+' :: r => (1, r)
        | '-' :: r => (-1, r)
        | r => (1, r)
      let ed := takeDigits sr.2
      if ed.1.isEmpty then (mant, l)
      else (mant * pow10 (sr.1 * (digitsVal ed.1 : Int)), ed.2)
    else (mant, l)

/-- Parse the longest unsigned decimal-literal prefix
(`digits [. digits]` or `. digits`, then an optional exponent) of `l`.
Returns the exact value and the unconsumed rest, or `none` when no digit is
consumed. -/
def parseDecPrefix (l : List Char) : Option (Rat × List Char) :=
  let ip := takeDigits l
  match ip.2 with
  | '.' :: r2 =>
    let fp := takeDigits r2
    if ip.1.isEmpty && fp.1.isEmpty then none
    else
      let mant : Rat :=
        (digitsVal ip.1 : Rat) + (digitsVal fp.1 : Rat) / ((10 : Rat) ^ fp.1.length)
      some (applyExp mant fp.2)
  | r1 =>
    if ip.1.isEmpty then none
    else some (applyExp (digitsVal ip.1 : Rat) r1)

/-- Model of JavaScript `parseFloat`: skip leading whitespace, take an
optional sign, accept an `Infinity` prefix, else take the longest
decimal-literal prefix; `NaN` when no digits are consumed.  Trailing
characters are ignored. -/
def jsParseFloat (s : String) : JsNum :=
  let l := s.data.dropWhile isJsWs
  let sl : Rat × List Char :=
    match l with
    | '+' :: r => (1, r)
    | '-' :: r => (-1, r)
    | r => (1, r)
  if "Infinity".data.isPrefixOf sl.2 then
    if sl.1 = 1 then .posInf else .negInf
  else
    match parseDecPrefix sl.2 with
    | some (q, _) => .fin (sl.1 * q)
    | none => .nan

/-- Value of a hexadecimal digit character (callers guarantee validity). -/
def radixDigitVal (c : Char) : Nat :=
  if c.isDigit then c.toNat - '0'.toNat else c.toLower.toNat - 'a'.toNat + 10

/-- Is `c` a digit of base `b`? -/
def isRadixDigit (b : Nat) (c : Char) : Bool :=
  (c.isDigit || ('a' ≤ c.toLower && c.toLower ≤ 'f')) && radixDigitVal c < b

/-- Full-string base-`b` digit parse as used by `Number` after a
`0x`/`0o`/`0b` prefix: `NaN` unless the remainder is a non-empty run of
valid digits. -/
def radixFull (b : Nat) (l : List Char) : JsNum :=
  if l ≠ [] && l.all (isRadixDigit b) then
    .fin ((l.foldl (fun a c => a * b + radixDigitVal c) 0 : Nat) : Rat)
  else .nan

/-- Full-string signed decimal conversion (`Number` on a trimmed string that
does not carry a radix prefix): optional sign, then either exactly
`Infinity` or a decimal literal consuming the whole string. -/
def decFull (l : List Char) : JsNum :=
  let sl : Rat × List Char :=
    match l with
    | '+' :: r => (1, r)
    | '-' :: r => (-1, r)
    | r => (1, r)
  if sl.2 = "Infinity".data then
    if sl.1 = 1 then .posInf else .negInf
  else
    match parseDecPrefix sl.2 with
    | some (q, []) => .fin (sl.1 * q)
    | _ => .nan

/-- Model of JavaScript `Number(string)` conversion: trim whitespace, map
the empty string to `0`, handle `0x`/`0o`/`0b` radix literals (unsigned
only), otherwise require a full-string signed decimal literal or
`Infinity`; anything else is `NaN`. -/
def jsToNumber (s : String) : JsNum :=
  let l := ((s.data.dropWhile isJsWs).reverse.dropWhile isJsWs).reverse
  match l with
  | [] => .fin 0
  | '0' :: c :: rest =>
    if c == 'x' || c == 'X' then radixFull 16 rest
    else if c == 'o' || c == 'O' then radixFull 8 rest
    else if c == 'b' || c == 'B' then radixFull 2 rest
    else decFull l
  | _ => decFull l

/-- JavaScript `haystack.includes(needle)`: the needle occurs as a
contiguous substring. -/
def jsIncludes (hay needle : String) : Bool :=
  isInfixChars needle.data hay.data

/-- The `inc` helper of `filtered`: case-insensitive substring match of the
trimmed needle (`h.toLowerCase().includes(n.trim().toLowerCase())`);
case folding is modelled by `String.toLower`. -/
def incFilter (h n : String) : Bool :=
  jsIncludes (jsToLower h) (jsToLower (jsTrim n))

/-- Model of `JSON.parse` followed by `String(...)` for the scalar payloads
this API delivers: a JSON string literal free of escapes and inner quotes
yields its contents, a signed integer numeral yields its canonical decimal
form, and `true`/`false`/`null` stringify to their names.  Payloads outside
this scalar fragment are treated as a parse failure (`none`), which
`normalizeValue` then sends to its catch branch. -/
def jsonScalarString (raw : String) : Option String :=
  match raw.data with
  | '"' :: rest =>
    if rest ≠ [] && rest.getLast? = some '"'
        && (rest.dropLast.all fun c => c ≠ '"' && c ≠ '\\') then
      some (rest.dropLast.asString)
    else none
  | l =>
    if raw = "true" || raw = "false" || raw = "null" then some raw
    else
      let sl : Int × List Char :=
        match l with
        | '-' :: r => (-1, r)
        | r => (1, r)
      let dp := takeDigits sl.2
      if dp.1 ≠ [] && dp.2 = [] then
        some (toString (sl.1 * (digitsVal dp.1 : Int)))
      else none

/-- `normalizeValue` from `src/lib/api.ts`: empty/absent input gives `""`;
otherwise `String(JSON.parse(raw))`, falling back on parse failure to
removing every `"` character (`raw.replaceAll` of the quote). -/
def normalizeValue (raw : Option String) : String :=
  match raw with
  | none => ""
  | some r =>
    if r = "" then ""
    else
      match jsonScalarString r with
      | some s => s
      | none => (r.data.filter (fun c => c ≠ '"')).asString

/-- `mapUnit` from `src/lib/api.ts`: absent or empty units give `""`; a
unit code ending in `.degF` / `.degC` maps to its symbol; anything else
passes through unchanged. -/
def mapUnit (units : Option String) : String :=
  match units with
  | none => ""
  | some u =>
    if u = "" then ""
    else if jsEndsWith u ".degF" then "°F"
    else if jsEndsWith u ".degC" then "°C"
    else u

/-- The host `Date` capability used by the component: `fmt` models
`formatDateUTCToLocal` (a `toLocaleString` rendering) and `getTime` models
the instant `new Date(s).getTime()` in milliseconds. -/
structure Env where
  fmt : String → String
  getTime : String → Int

/-- One display row (`type Row` in `Alarms.tsx`); `reconhecido` and
`descartado` hold the literal labels `"Sim"` / `"Não"`. -/
structure Row where
  id : String
  dateTimeISO : String
  dateTime : String
  site : String
  point : String
  value : String
  unit : String
  priority : Int
  reconhecido : String
  descartado : String
deriving DecidableEq, Repr

/-- The per-alarm projection of `mapped` in `fetchData`: composite id,
formatted time, `site` from `itemReference`, `point` from
`a.name || a.itemReference` (the empty string is the only falsy `string`),
normalized value, mapped unit, `priority` defaulted to `0` unless finite,
and the `Sim`/`Não` labels. -/
def rowOfAlarm (env : Env) (fromIp : SourceIp) (a : AlarmDTO) : Row :=
  { id := composedId fromIp a.id
    dateTimeISO := a.creationTime
    dateTime := env.fmt a.creationTime
    site := a.itemReference
    point := if a.name = "" then a.itemReference else a.name
    value := normalizeValue (a.triggerValue.bind TriggerValue.value)
    unit := mapUnit (a.triggerValue.bind TriggerValue.units)
    priority := a.priority.getD 0
    reconhecido := if a.isAcknowledged then "Sim" else "Não"
    descartado := if a.isDiscarded then "Sim" else "Não" }

/-- Did a source call succeed?  (`Except.error` carries the thrown
message.) -/
def isOk : Except String (List AlarmDTO) → Bool
  | .ok _ => true
  | .error _ => false

/-- The `successes` array of `fetchData`, in push order (`10.2.1.100`
attempted first). -/
def successesOf (r100 r69 : Except String (List AlarmDTO)) : List String :=
  (if isOk r100 then ["10.2.1.100"] else []) ++ (if isOk r69 then ["10.2.1.69"] else [])

/-- The `failures` array of `fetchData`, in push order. -/
def failuresOf (r100 r69 : Except String (List AlarmDTO)) : List String :=
  (if isOk r100 then [] else ["10.2.1.100"]) ++ (if isOk r69 then [] else ["10.2.1.69"])

/-- The per-source item count (`c100` / `c69`): set only when that source's
fetch succeeded, `0` otherwise. -/
def countOf (r : Except String (List AlarmDTO)) : Nat :=
  match r with
  | .ok items => items.length
  | .error _ => 0

/-- The `connectionNote` chosen at the end of a round: both sources up,
exactly one up (naming the ok and failed sources), or both down. -/
def connectionNoteOf (r100 r69 : Except String (List AlarmDTO)) : String :=
  let succ := successesOf r100 r69
  let fail := failuresOf r100 r69
  let c100 := countOf r100
  let c69 := countOf r69
  if succ.length = 2 then s!"Conectado (100: {c100} + 69: {c69})"
  else if succ.length = 1 then
    let ok0 := succ.headD ""
    let failTxt := String.intercalate ", " fail
    s!"Parcial — ok: {ok0} / falha: {failTxt}"
  else "Falha nas duas conexões"

/-- `itemsAll` at the end of a round: the successful sources' items tagged
with their `fromIp`, in configuration order (`/api100` items first); a
failed source contributes nothing. -/
def itemsAllOf (r100 r69 : Except String (List AlarmDTO)) :
    List (SourceIp × AlarmDTO) :=
  (match r100 with
   | .ok items => items.map (fun a => (SourceIp.ip100, a))
   | .error _ => []) ++
  (match r69 with
   | .ok items => items.map (fun a => (SourceIp.ip69, a))
   | .error _ => [])

/-- The result of one aggregation round: the freshly mapped rows and the
connection note. -/
structure RoundResult where
  rows : List Row
  connectionNote : String
deriving DecidableEq, Repr

/-- One `fetchData` round over given per-source outcomes: merge the
successful sources' items in configuration order and map them to rows. -/
def fetchRound (env : Env) (r100 r69 : Except String (List AlarmDTO)) :
    RoundResult :=
  { rows := (itemsAllOf r100 r69).map (fun p => rowOfAlarm env p.1 p.2)
    connectionNote := connectionNoteOf r100 r69 }

/-- The tri-state acknowledged/discarded filters (`'all' | 'sim' | 'nao'`). -/
inductive TriState where
  | all
  | sim
  | nao
deriving DecidableEq, Repr

/-- The sortable columns (`type SortKey`). -/
inductive SortKey where
  | dateTime
  | site
  | point
  | value
  | unit
  | priority
  | reconhecido
  | descartado
deriving DecidableEq, Repr

/-- Sort direction (`type SortDir`). -/
inductive SortDir where
  | asc
  | desc
deriving DecidableEq, Repr

/-- The session view state: the eight filter fields and the sort key and
direction, exactly the `useState` cells mutated by user actions. -/
structure ViewState where
  fSite : String
  fPoint : String
  fValue : String
  fDateFrom : String
  fDateTo : String
  fPriority : String
  fAck : TriState
  fDisc : TriState
  sortKey : SortKey
  sortDir : SortDir
deriving DecidableEq, Repr

/-- The initial sort key (`useState<SortKey>('dateTime')`). -/
def defaultSortKey : SortKey := .dateTime

/-- The initial sort direction (`useState<SortDir>('desc')`). -/
def defaultSortDir : SortDir := .desc

/-- `clearFilters` from the two-source `Alarms.tsx`: blank every filter
field, set both tri-states to `all`, and restore the default sort key and
direction.  It performs no fetch. -/
def clearFilters (v : ViewState) : ViewState :=
  { v with
    fSite := "", fPoint := "", fValue := "",
    fDateFrom := "", fDateTo := "",
    fPriority := "",
    fAck := .all, fDisc := .all,
    sortKey := .dateTime,
    sortDir := .desc }

/-- The priority conjunct of `filtered`: pass-through on a blank (trimmed
empty) filter; exact equality `r.priority === Number(fPriority)` when the
filter converts to a non-`NaN` number; otherwise substring match of the
trimmed filter inside `String(r.priority)`. -/
def passPriority (fPriority : String) (r : Row) : Bool :=
  let priNum := jsToNumber fPriority
  if jsTrim fPriority = "" then true
  else if priNum ≠ JsNum.nan then JsNum.fin (r.priority : Rat) = priNum
  else jsIncludes (toString r.priority) (jsTrim fPriority)

/-- The row predicate of `filtered`: conjunction of the site, point, value,
date-range, acknowledged, discarded and priority conditions. -/
def passRow (env : Env) (v : ViewState) (r : Row) : Bool :=
  let passSite := v.fSite = "" || incFilter r.site v.fSite
  let passPoint := v.fPoint = "" || incFilter r.point v.fPoint
  let passValue := v.fValue = "" || incFilter r.value v.fValue
  let ts := env.getTime r.dateTimeISO
  let passFrom :=
    v.fDateFrom = "" || env.getTime (v.fDateFrom ++ "T00:00:00") ≤ ts
  let passTo :=
    v.fDateTo = "" || ts ≤ env.getTime (v.fDateTo ++ "T23:59:59.999")
  let passAck :=
    v.fAck = .all ||
      (if v.fAck = .sim then r.reconhecido = "Sim" else r.reconhecido = "Não")
  let passDisc :=
    v.fDisc = .all ||
      (if v.fDisc = .sim then r.descartado = "Sim" else r.descartado = "Não")
  passSite && passPoint && passValue && passFrom && passTo && passAck && passDisc
    && passPriority v.fPriority r

/-- `filtered`: the rows that pass every active predicate. -/
def filteredOf (env : Env) (v : ViewState) (rows : List Row) : List Row :=
  rows.filter (passRow env v)

/-- Sign-faithful model of the JavaScript subtraction `na - nb` used by the
numeric comparator branches, for operands already known non-`NaN`:
finite values subtract exactly; a `±Infinity` against anything smaller or
larger maps to `±1`; the indeterminate same-infinity case (JS `NaN`, which
`Array.prototype.sort` treats as neither less nor greater) maps to `0`. -/
def jsSubNum : JsNum → JsNum → Rat
  | .fin a, .fin b => a - b
  | .posInf, .posInf => 0
  | .negInf, .negInf => 0
  | .posInf, _ => 1
  | .negInf, _ => -1
  | _, .posInf => -1
  | _, .negInf => 1
  | _, _ => 0

/-- Codepoint model of `String.prototype.localeCompare` restricted to the
sign information the sort consumes (the real pt-BR collation may order
exotic pairs differently; on the plain ASCII payloads compared here the
orders agree). -/
def localeCompare (a b : String) : Int :=
  match compare a b with
  | .lt => -1
  | .eq => 0
  | .gt => 1

/-- `dir` as the multiplier used in `sorted` (`asc` → `1`, `desc` → `-1`). -/
def dirVal : SortDir → Int
  | .asc => 1
  | .desc => -1

/-- `a.value.replace(',', '.')`: replace the first comma (only) by a dot. -/
def replaceFirstCommaChars : List Char → List Char
  | [] => []
  | c :: cs => if c = ',' then '.' :: cs else c :: replaceFirstCommaChars cs

/-- String wrapper of `replaceFirstCommaChars`. -/
def replaceCommaDot (s : String) : String :=
  (replaceFirstCommaChars s.data).asString

/-- The sort comparator of `sorted`, as a sign-faithful rational: numeric
instant difference for `dateTime`, locale comparison for the textual
columns, numeric difference for `priority`, and for `value` a `parseFloat`
on both sides after mapping a comma decimal separator to a dot, comparing
numerically when both parse (not `NaN`) and lexicographically otherwise;
everything multiplied by the direction. -/
def rowCompare (env : Env) (key : SortKey) (dir : SortDir) (a b : Row) : Rat :=
  let d : Rat := (dirVal dir : Int)
  match key with
  | .dateTime => ((env.getTime a.dateTimeISO - env.getTime b.dateTimeISO : Int) : Rat) * d
  | .site => ((localeCompare a.site b.site : Int) : Rat) * d
  | .point => ((localeCompare a.point b.point : Int) : Rat) * d
  | .unit => ((localeCompare a.unit b.unit : Int) : Rat) * d
  | .reconhecido => ((localeCompare a.reconhecido b.reconhecido : Int) : Rat) * d
  | .descartado => ((localeCompare a.descartado b.descartado : Int) : Rat) * d
  | .priority => ((a.priority - b.priority : Int) : Rat) * d
  | .value =>
    let na := jsParseFloat (replaceCommaDot a.value)
    let nb := jsParseFloat (replaceCommaDot b.value)
    if na ≠ JsNum.nan && nb ≠ JsNum.nan then jsSubNum na nb * d
    else ((localeCompare a.value b.value : Int) : Rat) * d

/-- The component state touched by a round: the view state, the displayed
rows, the error text, the connection note, the hydrated comments, the
loading flag and the countdown. -/
structure AppState where
  view : ViewState
  rows : List Row
  err : String
  connectionNote : String
  comments : List (String × String)
  loading : Bool
  secondsLeft : Nat

/-- The state effect of one completed `fetchData` call (per-source results
given, `store` modelling `localStorage`): clear the error, set the note,
replace the rows wholesale with this round's mapped rows, re-hydrate the
comments from the store by composite id, drop `loading`, and reset the
countdown to 60.  No filter or sort cell is written. -/
def applyFetchData (env : Env) (store : String → Option String)
    (st : AppState) (r100 r69 : Except String (List AlarmDTO)) : AppState :=
  let res := fetchRound env r100 r69
  { st with
    rows := res.rows
    err := ""
    connectionNote := res.connectionNote
    comments := res.rows.map (fun r => (r.id, (store (COMMENT_KEY r.id)).getD ""))
    loading := false
    secondsLeft := 60 }

/-- The scheduler-visible state: the auto-refresh toggle, the countdown,
the `loading` flag, and the number of rounds currently in flight. -/
structure SchedState where
  autoRefresh : Bool
  secondsLeft : Nat
  loading : Bool
  inFlight : Nat
deriving DecidableEq, Repr

/-- Calling `fetchData()`: the function synchronously sets `loading` and a
new round is from that point in flight. -/
def startRound (st : SchedState) : SchedState :=
  { st with loading := true, inFlight := st.inFlight + 1 }

/-- One 1-second interval callback (`setSecondsLeft(s => ...)`): when the
countdown has reached `s <= 1` it calls `fetchData()` — without consulting
`loading` — and resets the countdown to 60; otherwise it decrements.  No
tick fires while auto-refresh is off (the interval is cleared). -/
def tick (st : SchedState) : SchedState :=
  if st.autoRefresh then
    if st.secondsLeft ≤ 1 then startRound { st with secondsLeft := 60 }
    else { st with secondsLeft := st.secondsLeft - 1 }
  else st

/-- A click of the refresh button (`onClick={fetchData}` with
`disabled={loading}`): a no-op while a round is loading, otherwise it
starts a round. -/
def manualRefresh (st : SchedState) : SchedState :=
  if st.loading then st else startRound st

/-- A round completing (`finally` block): `loading` drops, the countdown
resets, and the round leaves flight. -/
def finishRound (st : SchedState) : SchedState :=
  { st with loading := false, secondsLeft := 60, inFlight := st.inFlight - 1 }

/-- One observable I/O event of a round: a source call being issued or
settling (with its success flag). -/
inductive REvent where
  | callStart (src : SourceIp)
  | callSettle (src : SourceIp) (ok : Bool)
deriving DecidableEq, Repr

/-- The I/O event trace of one `fetchData` round, read off the statement
order of the source: `await fetchFrom('/api100')` (issue, suspend until
settled) inside its own try/catch, and only then `await fetchFrom('/api69')`
inside its own try/catch; both calls are always issued and always settle. -/
def roundTrace (r100 r69 : Except String (List AlarmDTO)) : List REvent :=
  [.callStart .ip100, .callSettle .ip100 (isOk r100),
   .callStart .ip69, .callSettle .ip69 (isOk r69)]

/-- Position of the first event satisfying `p` in a trace. -/
def traceIdx (p : REvent → Bool) (tr : List REvent) : Nat :=
  tr.findIdx p

/-- A dummy host environment for concrete scenarios (none of the concrete
claims depends on date formatting or parsing). -/
def env0 : Env := { fmt := fun _ => "", getTime := fun _ => 0 }

/-- An empty `localStorage`. -/
def store0 : String → Option String := fun _ => none

/-- The initial view state (the `useState` initial values of the filter,
tri-state and sort cells). -/
def initialView : ViewState :=
  { fSite := "", fPoint := "", fValue := "", fDateFrom := "", fDateTo := "",
    fPriority := "", fAck := .all, fDisc := .all,
    sortKey := .dateTime, sortDir := .desc }

/-- A concrete row with the given priority, used by concrete scenarios. -/
def sampleRow (pr : Int) : Row :=
  { id := "10.2.1.100-" ++ toString pr, dateTimeISO := "", dateTime := "",
    site := "S", point := "P", value := "", unit := "", priority := pr,
    reconhecido := "Não", descartado := "Não" }

/-- A concrete row carrying the given value string. -/
def sampleRowV (v : String) : Row :=
  { sampleRow 0 with value := v }

/-- A concrete alarm delivered by source `10.2.1.69`. -/
def alarmB : AlarmDTO :=
  { id := "9", itemReference := "B-Site", name := "B-Point", creationTime := "",
    isAcknowledged := false, isDiscarded := false, priority := some 1,
    triggerValue := none }

/-- Three concrete alarms delivered by source `10.2.1.100`. -/
def alarmsA : List AlarmDTO :=
  [{ alarmB with id := "1" }, { alarmB with id := "2" }, { alarmB with id := "3" }]

/-- The displayed row of `10.2.1.69` origin from an earlier successful
round. -/
def prevRowB : Row := rowOfAlarm env0 .ip69 alarmB

/-- A component state displaying one `10.2.1.69`-origin row before a new
round runs. -/
def stPrev : AppState :=
  { view := initialView, rows := [prevRowB], err := "", connectionNote := "",
    comments := [], loading := false, secondsLeft := 5 }

/-- A concrete alarm whose `name` is empty. -/
def alarmNoName : AlarmDTO :=
  { id := "7", itemReference := "Site-1", name := "", creationTime := "",
    isAcknowledged := false, isDiscarded := false, priority := some 2,
    triggerValue := none }

/-- A concrete alarm whose `priority` is not a finite number. -/
def alarmNoPriority : AlarmDTO :=
  { alarmNoName with id := "8", priority := none }

end AlarmBoard

namespace AlarmBoard

/-! ### Helper lemmas -/

/-- `toString` on a string is the identity. -/
theorem toString_string (s : String) : toString s = s := rfl

/-- The priority filter `"0"` passes any row whose projected priority is
`0`. -/
theorem passPriority_zero (r : Row) (hr : r.priority = 0) :
    passPriority "0" r = true := by
  have h1 : ¬ jsTrim "0" = "" := by decide
  have h2 : jsToNumber "0" ≠ JsNum.nan := by with_unfolding_all decide
  simp only [passPriority]
  rw [if_neg h1, if_pos h2, hr]
  with_unfolding_all decide

/-! ### C4: composite identity is injective across sources -/

/-- C4: for any two alarms from different configured sources — even with
identical source-local ids — the composed identities differ, and hence so
do the derived annotation (comment) keys: row keys and annotation lookups
never collide across sources. -/
theorem C4_composedId_injective_across_sources (s1 s2 : SourceIp)
    (id1 id2 : String) (h : s1 ≠ s2) :
    composedId s1 id1 ≠ composedId s2 id2 ∧
    COMMENT_KEY (composedId s1 id1) ≠ COMMENT_KEY (composedId s2 id2) := by
  cases s1 <;> cases s2 <;>
    first
      | exact absurd rfl h
      | refine ⟨?_, ?_⟩ <;>
          (intro he
           have hd := congrArg String.data he
           simp [COMMENT_KEY, composedId, SourceIp.str, String.data_append] at hd)

/-- Witness for C4 at the colliding local id `"7"` of the two sources. -/
theorem C4_composedId_injective_across_sources_witness :
    SourceIp.ip100 ≠ SourceIp.ip69 ∧
    composedId .ip100 "7" ≠ composedId .ip69 "7" :=
  ⟨by decide,
   (C4_composedId_injective_across_sources .ip100 .ip69 "7" "7" (by decide)).1⟩

/-! ### C5: clear-filters resets everything, refresh resets nothing -/

/-- C5: the explicit clear action resets every filter field to its
empty/`all` state and the sort to the default key and direction
(`dateTime` descending, the initial `useState` values), while a completed
refresh leaves the whole view state (filters and sort) untouched. -/
theorem C5_clearFilters_resets_refresh_preserves (v : ViewState) (env : Env)
    (store : String → Option String) (st : AppState)
    (r100 r69 : Except String (List AlarmDTO)) :
    clearFilters v =
      { fSite := "", fPoint := "", fValue := "", fDateFrom := "", fDateTo := "",
        fPriority := "", fAck := .all, fDisc := .all,
        sortKey := defaultSortKey, sortDir := defaultSortDir } ∧
    (applyFetchData env store st r100 r69).view = st.view :=
  ⟨rfl, rfl⟩

/-! ### C9: empty name falls back to itemReference -/

/-- C9: when an alarm's `name` is empty (the only falsy value of its
`string` type), the projected row's `point` equals the alarm's
`itemReference` — which is also the row's `site` — so the point column is
non-empty whenever the site is. -/
theorem C9_point_falls_back_to_itemReference (env : Env) (src : SourceIp)
    (a : AlarmDTO) (h : a.name = "") :
    (rowOfAlarm env src a).point = a.itemReference ∧
    (rowOfAlarm env src a).site = a.itemReference ∧
    (a.itemReference ≠ "" → (rowOfAlarm env src a).point ≠ "") := by
  refine ⟨?_, rfl, ?_⟩
  · simp [rowOfAlarm, h]
  · intro hne; simp [rowOfAlarm, h, hne]

/-- Witness for C9 at a concrete alarm with empty name. -/
theorem C9_point_falls_back_to_itemReference_witness :
    alarmNoName.name = "" ∧
    (rowOfAlarm env0 .ip100 alarmNoName).point = alarmNoName.itemReference :=
  ⟨rfl, (C9_point_falls_back_to_itemReference env0 .ip100 alarmNoName rfl).1⟩

/-! ### C10: non-finite priority defaults to zero -/

/-- C10: an alarm whose `priority` is not a finite number is projected with
priority `0`; such a row passes the numeric priority filter `"0"`, and the
priority sort comparator ties it (result `0`) with any genuine
priority-`0` row. -/
theorem C10_nonfinite_priority_defaults_to_zero (env : Env) (src : SourceIp)
    (a : AlarmDTO) (h : a.priority = none) :
    (rowOfAlarm env src a).priority = 0 ∧
    passPriority "0" (rowOfAlarm env src a) = true ∧
    (∀ b : Row, b.priority = 0 → ∀ dir : SortDir,
      rowCompare env .priority dir (rowOfAlarm env src a) b = 0) := by
  have hp : (rowOfAlarm env src a).priority = 0 := by simp [rowOfAlarm, h]
  refine ⟨hp, passPriority_zero _ hp, ?_⟩
  intro b hb dir
  simp [rowCompare, hp, hb]

/-- Witness for C10 at a concrete alarm with non-finite priority. -/
theorem C10_nonfinite_priority_defaults_to_zero_witness :
    alarmNoPriority.priority = none ∧
    (rowOfAlarm env0 .ip100 alarmNoPriority).priority = 0 ∧
    passPriority "0" (rowOfAlarm env0 .ip100 alarmNoPriority) = true :=
  ⟨rfl,
   (C10_nonfinite_priority_defaults_to_zero env0 .ip100 alarmNoPriority rfl).1,
   (C10_nonfinite_priority_defaults_to_zero env0 .ip100 alarmNoPriority rfl).2.1⟩



/-! ### C1: a failed source's previously displayed rows -/

/-- C1 counterexample: a state displays one row of `10.2.1.69` origin; a
round then runs in which `10.2.1.100` returns 3 alarms and `10.2.1.69`
fails.  The outcome is the partial note, yet the displayed batch after the
round consists of exactly the 3 fresh `10.2.1.100` rows and the previously
displayed `10.2.1.69`-origin row is gone — refuting the claim that a
source's failure never removes its previously displayed rows. -/
theorem C1_counterexample :
    prevRowB ∈ stPrev.rows ∧
    connectionNoteOf (Except.ok alarmsA) (Except.error "timeout")
      = "Parcial — ok: 10.2.1.100 / falha: 10.2.1.69" ∧
    (applyFetchData env0 store0 stPrev (Except.ok alarmsA)
        (Except.error "timeout")).rows.length = 3 ∧
    prevRowB ∉ (applyFetchData env0 store0 stPrev (Except.ok alarmsA)
        (Except.error "timeout")).rows := by
  with_unfolding_all decide

/-- C1 (amended): a completed round replaces the displayed batch wholesale
with rows built from the sources that succeeded in that round only; a
failed source contributes nothing, so its previously displayed rows are
removed (and on an all-failed round the table empties). -/
theorem C1_round_rows_from_successful_sources_only (env : Env)
    (store : String → Option String) (st : AppState)
    (r100 r69 : Except String (List AlarmDTO)) :
    (applyFetchData env store st r100 r69).rows =
      (match r100 with
       | .ok items => items.map (rowOfAlarm env .ip100)
       | .error _ => []) ++
      (match r69 with
       | .ok items => items.map (rowOfAlarm env .ip69)
       | .error _ => []) := by
  cases r100 <;> cases r69 <;>
    simp [applyFetchData, fetchRound, itemsAllOf, List.map_map, Function.comp_def]

/-! ### C2: at most one round in flight -/

/-- C2 counterexample: with auto-refresh on, one second left on the
countdown and a round already in flight (`loading` set, one round
running), the interval callback still calls `fetchData()`: afterwards two
rounds are in flight — a timer trigger arriving during a round is not
coalesced into a no-op, refuting the single-flight claim. -/
theorem C2_counterexample :
    (SchedState.mk true 1 true 1).loading = true ∧
    (SchedState.mk true 1 true 1).inFlight = 1 ∧
    (tick (SchedState.mk true 1 true 1)).inFlight = 2 := by
  decide

/-- C2 (amended): only the manual trigger is coalesced — the refresh button
is disabled while `loading`, so a click during a round changes nothing —
whereas a countdown expiry starts a round unconditionally, its in-flight
count growing by one regardless of `loading`. -/
theorem C2_single_flight_for_manual_trigger_only (st : SchedState) :
    (st.loading = true → manualRefresh st = st) ∧
    (st.autoRefresh = true → st.secondsLeft ≤ 1 →
      tick st = startRound { st with secondsLeft := 60 } ∧
      (tick st).inFlight = st.inFlight + 1) := by
  constructor
  · intro h; simp [manualRefresh, h]
  · intro ha hs
    constructor
    · simp [tick, ha, hs]
    · simp [tick, ha, hs, startRound]

/-- Witness for C2 (amended) at the concrete in-flight state. -/
theorem C2_single_flight_for_manual_trigger_only_witness :
    ((SchedState.mk true 1 true 1).loading = true ∧
      manualRefresh (SchedState.mk true 1 true 1) = SchedState.mk true 1 true 1) ∧
    ((SchedState.mk true 1 true 1).autoRefresh = true ∧
      (SchedState.mk true 1 true 1).secondsLeft ≤ 1 ∧
      (tick (SchedState.mk true 1 true 1)).inFlight
        = (SchedState.mk true 1 true 1).inFlight + 1) :=
  ⟨⟨rfl, (C2_single_flight_for_manual_trigger_only (SchedState.mk true 1 true 1)).1 rfl⟩,
   ⟨rfl, by decide,
    ((C2_single_flight_for_manual_trigger_only (SchedState.mk true 1 true 1)).2
      rfl (by decide)).2⟩⟩

/-! ### C3: the two source calls are sequential, both always settle -/

/-- C3 counterexample: at a concrete round (both sources succeeding) the
trace shows the `10.2.1.69` call being issued strictly after the
`10.2.1.100` call has settled (positions 1 and 2 of the trace) — the two
source fetches do not execute concurrently. -/
theorem C3_counterexample :
    roundTrace (Except.ok []) (Except.ok [])
      = [REvent.callStart .ip100, REvent.callSettle .ip100 true,
         REvent.callStart .ip69, REvent.callSettle .ip69 true] ∧
    traceIdx (fun e => decide (e = REvent.callSettle .ip100 true))
        (roundTrace (Except.ok []) (Except.ok []))
      < traceIdx (fun e => decide (e = REvent.callStart .ip69))
        (roundTrace (Except.ok []) (Except.ok [])) := by
  refine ⟨rfl, ?_⟩
  decide

/-- C3 (amended): in every round both source calls are issued and both
settle — a failure of the first call neither cancels nor skips the second,
and the round never short-circuits on a first failure or success — but the
calls run sequentially in configuration order: the `10.2.1.100` call
settles at trace position 1 before the `10.2.1.69` call starts at trace
position 2. -/
theorem C3_sequential_calls_both_settle (r100 r69 : Except String (List AlarmDTO)) :
    REvent.callStart .ip100 ∈ roundTrace r100 r69 ∧
    REvent.callSettle .ip100 (isOk r100) ∈ roundTrace r100 r69 ∧
    REvent.callStart .ip69 ∈ roundTrace r100 r69 ∧
    REvent.callSettle .ip69 (isOk r69) ∈ roundTrace r100 r69 ∧
    traceIdx (fun e => decide (e = REvent.callSettle .ip100 (isOk r100)))
        (roundTrace r100 r69) = 1 ∧
    traceIdx (fun e => decide (e = REvent.callStart .ip69))
        (roundTrace r100 r69) = 2 := by
  cases r100 <;> cases r69 <;>
    simp +decide [roundTrace, traceIdx, isOk] <;> rfl

/-! ### C6: the priority filter -/

/-- C6: for every row and filter string, a blank (trimmed-empty, i.e.
unset) priority filter passes the row; a non-blank filter that converts to
a non-`NaN` number passes exactly the rows whose priority equals that
number; any other non-blank filter passes exactly the rows whose
stringified priority contains the trimmed filter; and concretely, filter
`"2"` over rows with priorities `[1, 2, 2, 3]` passes exactly the two
priority-2 rows. -/
theorem C6_priority_filter (f : String) (r : Row) :
    (jsTrim f = "" → passPriority f r = true) ∧
    (jsTrim f ≠ "" → jsToNumber f ≠ JsNum.nan →
      (passPriority f r = true ↔ JsNum.fin (r.priority : Rat) = jsToNumber f)) ∧
    (jsTrim f ≠ "" → jsToNumber f = JsNum.nan →
      (passPriority f r = true ↔
        jsIncludes (toString r.priority) (jsTrim f) = true)) ∧
    filteredOf env0 { initialView with fPriority := "2" }
        [sampleRow 1, sampleRow 2, sampleRow 2, sampleRow 3]
      = [sampleRow 2, sampleRow 2] := by
  refine ⟨?_, ?_, ?_, ?_⟩
  · intro h; simp [passPriority, h]
  · intro h1 h2; simp [passPriority, h1, h2]
  · intro h1 h2; simp [passPriority, h1, h2]
  · with_unfolding_all decide

/-- Witness for C6 at filter `"2"` and a priority-2 row. -/
theorem C6_priority_filter_witness :
    jsTrim "2" ≠ "" ∧ jsToNumber "2" ≠ JsNum.nan ∧
    (passPriority "2" (sampleRow 2) = true ↔
      JsNum.fin (((sampleRow 2).priority : Int) : Rat) = jsToNumber "2") :=
  ⟨by decide, by with_unfolding_all decide,
   (C6_priority_filter "2" (sampleRow 2)).2.1 (by decide)
     (by with_unfolding_all decide)⟩

/-! ### C7: the value sort comparator -/

/-- C7: the value comparator first runs `parseFloat` on both operands after
mapping a comma decimal separator to a dot; when both parse (neither is
`NaN`) the result is the numeric difference times the direction, otherwise
it falls back to the lexicographic comparison; consequently the value
strings `"12,5"` and `"12.5"` compare as numerically equal — comparator
result `0` in either direction. -/
theorem C7_value_comparator (env : Env) (dir : SortDir) (a b : Row) :
    (jsParseFloat (replaceCommaDot a.value) ≠ JsNum.nan →
      jsParseFloat (replaceCommaDot b.value) ≠ JsNum.nan →
      rowCompare env .value dir a b =
        jsSubNum (jsParseFloat (replaceCommaDot a.value))
          (jsParseFloat (replaceCommaDot b.value)) * ((dirVal dir : Int) : Rat)) ∧
    ((jsParseFloat (replaceCommaDot a.value) = JsNum.nan ∨
      jsParseFloat (replaceCommaDot b.value) = JsNum.nan) →
      rowCompare env .value dir a b =
        ((localeCompare a.value b.value : Int) : Rat) * ((dirVal dir : Int) : Rat)) ∧
    rowCompare env0 .value dir (sampleRowV "12,5") (sampleRowV "12.5") = 0 := by
  refine ⟨?_, ?_, ?_⟩
  · intro h1 h2; simp [rowCompare, h1, h2]
  · intro h
    rcases h with h | h <;> simp [rowCompare, h]
  · cases dir <;> with_unfolding_all decide

/-- Witness for C7 at the comma/dot pair of value strings. -/
theorem C7_value_comparator_witness :
    jsParseFloat (replaceCommaDot (sampleRowV "12,5").value) ≠ JsNum.nan ∧
    jsParseFloat (replaceCommaDot (sampleRowV "12.5").value) ≠ JsNum.nan ∧
    rowCompare env0 .value .asc (sampleRowV "12,5") (sampleRowV "12.5") =
      jsSubNum (jsParseFloat (replaceCommaDot (sampleRowV "12,5").value))
        (jsParseFloat (replaceCommaDot (sampleRowV "12.5").value))
        * ((dirVal .asc : Int) : Rat) :=
  ⟨by with_unfolding_all decide, by with_unfolding_all decide,
   (C7_value_comparator env0 .asc (sampleRowV "12,5") (sampleRowV "12.5")).1
     (by with_unfolding_all decide) (by with_unfolding_all decide)⟩

/-! ### C8: round outcome classification -/

/-- The note of a both-sources-succeeded round. -/
theorem connectionNoteOf_ok_ok (a b : List AlarmDTO) :
    connectionNoteOf (.ok a) (.ok b)
      = s!"Conectado (100: {a.length} + 69: {b.length})" := by
  simp [connectionNoteOf, successesOf, failuresOf, isOk, countOf]

/-- The note of a round in which only `10.2.1.69` failed. -/
theorem connectionNoteOf_ok_err (a : List AlarmDTO) (e : String) :
    connectionNoteOf (.ok a) (.error e)
      = "Parcial — ok: 10.2.1.100 / falha: 10.2.1.69" := by
  simp [connectionNoteOf, successesOf, failuresOf, isOk, countOf]
  try rfl

/-- The note of a round in which only `10.2.1.100` failed. -/
theorem connectionNoteOf_err_ok (e : String) (b : List AlarmDTO) :
    connectionNoteOf (.error e) (.ok b)
      = "Parcial — ok: 10.2.1.69 / falha: 10.2.1.100" := by
  simp [connectionNoteOf, successesOf, failuresOf, isOk, countOf]
  try rfl

/-- The note of an all-failed round. -/
theorem connectionNoteOf_err_err (e1 e2 : String) :
    connectionNoteOf (.error e1) (.error e2) = "Falha nas duas conexões" := by
  simp [connectionNoteOf, successesOf, failuresOf, isOk, countOf]
  try rfl

/-- The connected-form note is never a partial or all-failed note. -/
theorem conectado_ne_parcialA (x y : Nat) :
    s!"Conectado (100: {x} + 69: {y})"
      ≠ "Parcial — ok: 10.2.1.100 / falha: 10.2.1.69" := by
  intro he; have hd := congrArg String.data he
  simp [toString_string, String.data_append] at hd

/-- The connected-form note differs from the other partial note. -/
theorem conectado_ne_parcialB (x y : Nat) :
    s!"Conectado (100: {x} + 69: {y})"
      ≠ "Parcial — ok: 10.2.1.69 / falha: 10.2.1.100" := by
  intro he; have hd := congrArg String.data he
  simp [toString_string, String.data_append] at hd

/-- The connected-form note differs from the all-failed note. -/
theorem conectado_ne_falha (x y : Nat) :
    s!"Conectado (100: {x} + 69: {y})" ≠ "Falha nas duas conexões" := by
  intro he; have hd := congrArg String.data he
  simp [toString_string, String.data_append] at hd

/-- Flipped orientation of `conectado_ne_parcialA`. -/
theorem parcialA_ne_conectado (x y : Nat) :
    "Parcial — ok: 10.2.1.100 / falha: 10.2.1.69"
      ≠ s!"Conectado (100: {x} + 69: {y})" :=
  fun he => conectado_ne_parcialA x y he.symm

/-- Flipped orientation of `conectado_ne_parcialB`. -/
theorem parcialB_ne_conectado (x y : Nat) :
    "Parcial — ok: 10.2.1.69 / falha: 10.2.1.100"
      ≠ s!"Conectado (100: {x} + 69: {y})" :=
  fun he => conectado_ne_parcialB x y he.symm

/-- Flipped orientation of `conectado_ne_falha`. -/
theorem falha_ne_conectado (x y : Nat) :
    "Falha nas duas conexões" ≠ s!"Conectado (100: {x} + 69: {y})" :=
  fun he => conectado_ne_falha x y he.symm

/-- C8: the round note classifies the outcome exactly: the connected form
(with both counts) appears exactly when both sources succeed; each partial
form — naming the ok source and the failed source — appears exactly when
precisely that source failed; and the distinct all-failed note appears
exactly when both sources fail. -/
theorem C8_outcome_classification (r100 r69 : Except String (List AlarmDTO)) :
    (connectionNoteOf r100 r69
        = s!"Conectado (100: {countOf r100} + 69: {countOf r69})"
      ↔ isOk r100 = true ∧ isOk r69 = true) ∧
    (connectionNoteOf r100 r69 = "Parcial — ok: 10.2.1.100 / falha: 10.2.1.69"
      ↔ isOk r100 = true ∧ isOk r69 = false) ∧
    (connectionNoteOf r100 r69 = "Parcial — ok: 10.2.1.69 / falha: 10.2.1.100"
      ↔ isOk r100 = false ∧ isOk r69 = true) ∧
    (connectionNoteOf r100 r69 = "Falha nas duas conexões"
      ↔ isOk r100 = false ∧ isOk r69 = false) := by
  cases r100 with
  | ok a =>
    cases r69 with
    | ok b =>
      rw [connectionNoteOf_ok_ok]
      refine ⟨?_, ?_, ?_, ?_⟩ <;>
        simp +decide [isOk, countOf, conectado_ne_parcialA, conectado_ne_parcialB,
          conectado_ne_falha]
    | error e =>
      rw [connectionNoteOf_ok_err]
      refine ⟨?_, ?_, ?_, ?_⟩ <;>
        simp +decide [isOk, countOf, parcialA_ne_conectado]
  | error e =>
    cases r69 with
    | ok b =>
      rw [connectionNoteOf_err_ok]
      refine ⟨?_, ?_, ?_, ?_⟩ <;>
        simp +decide [isOk, countOf, parcialB_ne_conectado]
    | error e2 =>
      rw [connectionNoteOf_err_err]
      refine ⟨?_, ?_, ?_, ?_⟩ <;>
        simp +decide [isOk, countOf, falha_ne_conectado]

end AlarmBoard
